import Mathlib

/-!
Verification of the tftp-rs TFTP engine (src/lib.rs).

Shallow embedding conventions:
- A byte is a `Nat` (values below 256 in every packet the code can see).
- A Rust `&[u8]` is a `List Nat`.
- A Rust `Result<T, ParsingError>` together with the possibility of a panic
  (out-of-range slice index, `expect` on `Err`) is `RResult T`: `ok`, `err`,
  or `panicked`.
- A `CString` is the list of its bytes without the trailing NUL;
  `as_bytes_with_nul` appends the 0.
- Machine integers are `Nat` with explicit `% 2 ^ 16` where the `u16`
  wrapping matters.
-/

set_option maxRecDepth 20000
set_option linter.unusedVariables false

namespace Tftp

/-- The `ParsingError` enum of src/lib.rs. -/
inductive ParsingError where
  | NotEnoughData
  | InvalidOpcode
  | InvalidErrorMessage
  | SocketError
  | InvalidFilename
  | FileReadError
  | InvalidModeErr
deriving Repr, DecidableEq

/-- Outcome of a Rust expression that may return `Ok`, return `Err(ParsingError)`,
or panic (slice index out of range, `expect` failure). -/
inductive RResult (α : Type) where
  | ok (a : α)
  | err (e : ParsingError)
  | panicked
deriving Repr, DecidableEq

def RResult.bind {α β : Type} : RResult α → (α → RResult β) → RResult β
  | .ok a, f => f a
  | .err e, _ => .err e
  | .panicked, _ => .panicked

instance : Monad RResult where
  pure := RResult.ok
  bind := RResult.bind

/-- Rust slice indexing `l[a..b]`: panics when `a > b` or `b > l.len()`. -/
def rslice (l : List Nat) (a b : Nat) : RResult (List Nat) :=
  if a ≤ b ∧ b ≤ l.length then .ok ((l.drop a).take (b - a)) else .panicked

/-- Rust slice indexing `l[a..]`: panics when `a > l.len()`. -/
def rsliceFrom (l : List Nat) (a : Nat) : RResult (List Nat) :=
  if a ≤ l.length then .ok (l.drop a) else .panicked

/-- `u16::from_be_bytes` on a two-byte slice. -/
def be16 : List Nat → Nat
  | [a, b] => a * 256 + b
  | _ => 0

/-- `u16::to_be_bytes`. -/
def be16bytes (n : Nat) : List Nat := [n / 256 % 256, n % 256]

/-- `CString::new(bytes).expect(..)`: panics when the bytes contain an interior NUL. -/
def cstringNew (b : List Nat) : RResult (List Nat) :=
  if b.contains 0 then .panicked else .ok b

/-- The byte values of an ASCII string literal. -/
def asciiBytes (s : String) : List Nat := s.data.map Char.toNat

/-- The `OpCode` enum of src/lib.rs (`repr(u16)`, ReadRequest = 1). -/
inductive OpCode where
  | ReadRequest
  | WriteRequest
  | Data
  | Acknowledgment
  | TFTPError
deriving Repr, DecidableEq

def OpCode.toNat : OpCode → Nat
  | .ReadRequest => 1
  | .WriteRequest => 2
  | .Data => 3
  | .Acknowledgment => 4
  | .TFTPError => 5

/-- `OpCode::try_from(&[u8])`: `input.try_into()` demands exactly two bytes,
then the value is matched against 1..=5. -/
def OpCode.tryFrom (input : List Nat) : RResult OpCode :=
  if input.length = 2 then
    match be16 input with
    | 1 => .ok .ReadRequest
    | 2 => .ok .WriteRequest
    | 3 => .ok .Data
    | 4 => .ok .Acknowledgment
    | 5 => .ok .TFTPError
    | _ => .err .InvalidOpcode
  else .err .NotEnoughData

/-- The `ErrorCode` enum of src/lib.rs (`repr(u16)`, NotDefined = 0). -/
inductive ErrorCode where
  | NotDefined
  | FileNotFound
  | AccessViolation
  | DiskFull
  | IllegalTFTPOperation
  | UnknownTransferID
  | FileAlreadyExists
  | NoSuchUser
deriving Repr, DecidableEq

/-- The match arms of `ErrorCode::try_from` on the decoded u16 value:
0..=7 map to the variants, anything else falls to `Ok(NotDefined)`. -/
def ErrorCode.ofU16 (v : Nat) : ErrorCode :=
  match v with
  | 0 => .NotDefined
  | 1 => .FileNotFound
  | 2 => .AccessViolation
  | 3 => .DiskFull
  | 4 => .IllegalTFTPOperation
  | 5 => .UnknownTransferID
  | 6 => .FileAlreadyExists
  | 7 => .NoSuchUser
  | _ => .NotDefined

/-- `ErrorCode::try_from(&[u8])`: `input.try_into()` demands exactly two bytes;
every decoded value yields `Ok`. -/
def ErrorCode.tryFrom (input : List Nat) : RResult ErrorCode :=
  if input.length = 2 then .ok (ErrorCode.ofU16 (be16 input))
  else .err .NotEnoughData

/-- `ReadRequestPacket` of src/lib.rs; `filename` and `mode` are the CString bytes. -/
structure ReadRequestPacket where
  opcode : OpCode
  filename : List Nat
  mode : List Nat
deriving Repr, DecidableEq

/-- `ReadRequestPacket::try_from` on the bytes after the opcode.
`splitn(3, == 0)` segments: the first is `input.takeWhile (· ≠ 0)`; a second
segment exists only when the input contains a NUL. The mode is then sliced as
`input[end_filename + 1 .. end_filename + end_mode]` (one byte short of the
second segment, and a panicking range when that segment is empty). -/
def ReadRequestPacket.tryFrom (input : List Nat) : RResult ReadRequestPacket := do
  let end_filename := (input.takeWhile (fun x => x ≠ 0)).length
  let fbytes ← rslice input 0 end_filename
  let filename ← cstringNew fbytes
  if end_filename = input.length then
    RResult.err .NotEnoughData
  else
    let end_mode := ((input.drop (end_filename + 1)).takeWhile (fun x => x ≠ 0)).length
    let mbytes ← rslice input (end_filename + 1) (end_filename + end_mode)
    let mode ← cstringNew mbytes
    pure { opcode := .ReadRequest, filename := filename, mode := mode }

/-- `WriteRequestPacket` of src/lib.rs. -/
structure WriteRequestPacket where
  opcode : OpCode
  filename : List Nat
  mode : List Nat
deriving Repr, DecidableEq

/-- `WriteRequestPacket::try_from`: same splitting as the read request, but the
mode is sliced as `input[end_filename + 1 .. end_mode]`. -/
def WriteRequestPacket.tryFrom (input : List Nat) : RResult WriteRequestPacket := do
  let end_filename := (input.takeWhile (fun x => x ≠ 0)).length
  let fbytes ← rslice input 0 end_filename
  let filename ← cstringNew fbytes
  if end_filename = input.length then
    RResult.err .NotEnoughData
  else
    let end_mode := ((input.drop (end_filename + 1)).takeWhile (fun x => x ≠ 0)).length
    let mbytes ← rslice input (end_filename + 1) end_mode
    let mode ← cstringNew mbytes
    pure { opcode := .WriteRequest, filename := filename, mode := mode }

/-- `DataPacket` of src/lib.rs; `data` models the `[u8; 512]` array. -/
structure DataPacket where
  opcode : OpCode
  block_number : Nat
  data : List Nat
  data_length : Nat
deriving Repr, DecidableEq

/-- `DataPacket::try_from` on the bytes after the opcode.
`input.try_into()` for the block number demands the WHOLE input be exactly
2 bytes, and `input[2..].try_into()` for the data demands exactly 512 bytes
after that, so the two requirements are contradictory. -/
def DataPacket.tryFrom (input : List Nat) : RResult DataPacket := do
  let bn ← if input.length = 2 then pure input else RResult.err ParsingError.NotEnoughData
  let block_number := be16 bn
  let rest ← rsliceFrom input 2
  let data ← if rest.length = 512 then pure rest else RResult.err ParsingError.NotEnoughData
  let rest2 ← rsliceFrom input 2
  let data_length := rest2.length
  pure { opcode := .Data, block_number := block_number, data := data,
         data_length := data_length }

/-- `DataPacket::serialize`: the first `length` bytes of the returned
`(length, [u8; 4096])` buffer — opcode, block number, then
`data[..data_length]`. -/
def DataPacket.serialize (p : DataPacket) : List Nat :=
  be16bytes p.opcode.toNat ++ be16bytes p.block_number ++ p.data.take p.data_length

/-- `AckPacket` of src/lib.rs. -/
structure AckPacket where
  opcode : OpCode
  block_number : Nat
deriving Repr, DecidableEq

/-- `AckPacket::try_from` on the bytes after the opcode: the slice `input[..2]`
is taken first (panicking when fewer than two bytes remain), then converted. -/
def AckPacket.tryFrom (input : List Nat) : RResult AckPacket := do
  let bn ← rslice input 0 2
  pure { opcode := .Acknowledgment, block_number := be16 bn }

/-- `ErrorPacket` of src/lib.rs; `error_msg` is the CString bytes. -/
structure ErrorPacket where
  opcode : OpCode
  error_code : ErrorCode
  error_msg : List Nat
deriving Repr, DecidableEq

/-- `ErrorPacket::try_from` on the bytes after the opcode: two error-code
bytes via `input[0..2]` (panicking slice), then the message length is the
first `splitn(2, == 0)` segment of `input[2..]`, and the message is sliced
as `input[2..end_error_msg]` (panicking when the segment is shorter than 2). -/
def ErrorPacket.tryFrom (input : List Nat) : RResult ErrorPacket := do
  let cb ← rslice input 0 2
  let error_code ← ErrorCode.tryFrom cb
  let rest ← rsliceFrom input 2
  let end_error_msg := (rest.takeWhile (fun x => x ≠ 0)).length
  let mbytes ← rslice input 2 end_error_msg
  let error_msg ← cstringNew mbytes
  pure { opcode := .TFTPError, error_code := error_code, error_msg := error_msg }

/-- `PacketType` of src/lib.rs. -/
inductive PacketType where
  | ReadRequest (p : ReadRequestPacket)
  | WriteRequest (p : WriteRequestPacket)
  | Data (p : DataPacket)
  | Acknowledgment (p : AckPacket)
  | TFTPError (p : ErrorPacket)
deriving Repr, DecidableEq

/-- `PacketType::try_from(&[u8])`: takes `input[0..2]` (panicking when the
input has fewer than two bytes), decodes the opcode, and dispatches the
remaining bytes `input[2..]` to the per-kind parser. -/
def PacketType.tryFrom (input : List Nat) : RResult PacketType := do
  let ob ← rslice input 0 2
  let opcode ← OpCode.tryFrom ob
  let rest ← rsliceFrom input 2
  match opcode with
  | .ReadRequest => do
      let p ← ReadRequestPacket.tryFrom rest
      pure (.ReadRequest p)
  | .WriteRequest => do
      let p ← WriteRequestPacket.tryFrom rest
      pure (.WriteRequest p)
  | .Data => do
      let p ← DataPacket.tryFrom rest
      pure (.Data p)
  | .Acknowledgment => do
      let p ← AckPacket.tryFrom rest
      pure (.Acknowledgment p)
  | .TFTPError => do
      let p ← ErrorPacket.tryFrom rest
      pure (.TFTPError p)

/-- A datagram the session sends, abstracted to the packet it serializes:
`send_to` of a serialized Data packet, Ack packet, or (via `send_error`) an
Error packet with empty message. -/
inductive SentItem where
  | dataPkt (block : Nat) (chunk : List Nat)
  | ackPkt (block : Nat)
  | errPkt (code : ErrorCode)
deriving Repr, DecidableEq

/-- How a session run ends. -/
inductive SessionEnd where
  | ok
  | errored (e : ParsingError)
  | blocked
  | panicked
deriving Repr, DecidableEq

/-- The 512-byte `ack_buffer` handed to `PacketType::try_from` after `recv`
of a datagram `r`: the datagram bytes (truncated at 512) over a zeroed
buffer. -/
def recvBuffer (r : List Nat) : List Nat :=
  r.take 512 ++ List.replicate (512 - (r.take 512).length) 0

/-- The `loop` of `TFTPServer::handle_read_request`, src/lib.rs lines 438-492.
`content` is the unread remainder of the file (`f.read` fills at most 512
bytes), `packet_counter` the current `u16` block counter (incremented with
two's-complement wrapping), `responses` the datagrams that will arrive on the
session socket, `sent` the datagrams sent so far. When no datagram is
available the untimed `recv` blocks forever (`SessionEnd.blocked`). -/
def readLoop (content : List Nat) (packet_counter : Nat)
    (responses : List (List Nat)) (sent : List SentItem) :
    List SentItem × SessionEnd :=
  let chunk := content.take 512
  let data_read := chunk.length
  let sent1 := sent ++ [SentItem.dataPkt packet_counter chunk]
  match responses with
  | [] => (sent1, .blocked)
  | r :: rs =>
    match PacketType.tryFrom (recvBuffer r) with
    | .panicked => (sent1, .panicked)
    | .err _ =>
        (sent1 ++ [SentItem.errPkt .IllegalTFTPOperation], .ok)
    | .ok pkt =>
      let sent2 :=
        match pkt with
        | .Acknowledgment ackp =>
            if ackp.block_number ≠ packet_counter then
              sent1 ++ [SentItem.dataPkt packet_counter chunk]
            else sent1
        | _ => sent1 ++ [SentItem.errPkt .IllegalTFTPOperation]
      let next_counter := (packet_counter + 1) % 65536
      if data_read ≠ 512 then (sent2, .ok)
      else readLoop (content.drop 512) next_counter rs sent2

/-- Result of a full `handle_read_request` run: datagrams sent, whether
`File::open` was reached and succeeded, and how the call ended. -/
structure ReadResult where
  sent : List SentItem
  openedFile : Bool
  outcome : SessionEnd
deriving Repr, DecidableEq

/-- The mode strings accepted by the match in `handle_read_request`. -/
def acceptedModes : List (List Nat) :=
  [asciiBytes "binary", asciiBytes "octet", asciiBytes "octe"]

/-- `CStr::to_str`: succeeds on ASCII bytes (every mode and filename in this
development is ASCII; full UTF-8 acceptance is broader but unused here). -/
def cstrToStr (b : List Nat) : Option (List Nat) :=
  if b.all (fun x => x < 128) then some b else none

/-- `TFTPServer::handle_read_request`, src/lib.rs lines 402-495, with the
socket abstracted away: `fs` maps a filename to the content of the file when
it opens. A rejected mode goes through `send_error(.., NotDefined)?`, whose
`Ok(())` means execution falls through to the file open and the transfer
loop. -/
def handleReadRequest (filename mode : List Nat)
    (fs : List Nat → Option (List Nat)) (responses : List (List Nat)) :
    ReadResult :=
  match cstrToStr mode with
  | none => { sent := [], openedFile := false, outcome := .errored .InvalidModeErr }
  | some m =>
    let sent0 : List SentItem :=
      if acceptedModes.contains m then [] else [SentItem.errPkt .NotDefined]
    match cstrToStr filename with
    | none => { sent := sent0, openedFile := false, outcome := .errored .InvalidFilename }
    | some fname =>
      match fs fname with
      | none =>
          { sent := sent0 ++ [SentItem.errPkt .FileNotFound], openedFile := false,
            outcome := .errored .InvalidFilename }
      | some content =>
          let r := readLoop content 1 responses sent0
          { sent := r.1, openedFile := true, outcome := r.2 }

/-- `TFTPServer::handle_write_request`, src/lib.rs lines 497-508: binds an
ephemeral socket, sends nothing, receives nothing, writes nothing, and
returns `Ok(())`. The commented-out send is the whole intended body. -/
def handleWriteRequest (filename mode : List Nat)
    (responses : List (List Nat)) : List SentItem × SessionEnd :=
  ([], .ok)

example : PacketType.tryFrom [0, 4, 0, 7] =
    .ok (.Acknowledgment { opcode := .Acknowledgment, block_number := 7 }) := by decide

example : PacketType.tryFrom [] = .panicked := by decide

example : DataPacket.tryFrom [0, 1, 97] = .err .NotEnoughData := by decide

example : asciiBytes "octet" = [111, 99, 116, 101, 116] := by decide

example :
    readLoop (asciiBytes "hi") 1 [[0, 4, 0, 1]] [] =
      ([SentItem.dataPkt 1 (asciiBytes "hi")], .ok) := by decide

/-- Claim C1 is false on the code: serializing the structurally valid Data
packet with block number 1 and a one-byte payload gives the five bytes
[0, 3, 0, 1, 97], and `PacketType::try_from` on exactly those bytes returns
`Err(NotEnoughData)` instead of the packet, because `DataPacket::try_from`
demands the whole post-opcode input be 2 bytes and its tail be 512 bytes at
once. -/
theorem C1_data_roundtrip_fails :
    DataPacket.serialize
      { opcode := .Data, block_number := 1, data := List.replicate 512 97,
        data_length := 1 } = [0, 3, 0, 1, 97] ∧
    PacketType.tryFrom [0, 3, 0, 1, 97] = .err .NotEnoughData := by decide

/-- Claim C2 is false on the code: `DataPacket::try_from` returns
`Err(NotEnoughData)` on EVERY input, because the block-number conversion
`input.try_into()` requires the whole input to be exactly 2 bytes while the
payload conversion `input[2..].try_into()` requires exactly 512 further
bytes. In particular it never succeeds on inputs of 2 or more bytes. -/
theorem C2_data_tryFrom_always_fails (input : List Nat) :
    DataPacket.tryFrom input = .err .NotEnoughData := by
  unfold DataPacket.tryFrom
  by_cases h : input.length = 2
  · simp only [h, if_pos, Bind.bind, RResult.bind, pure, rsliceFrom]
    have h2 : (input.drop 2).length = 0 := by simp [h]
    simp [h, h2]
  · simp [h, Bind.bind, RResult.bind]

/-- Claim C3 is false on the code: with 1024 bytes of file content and block
counter 1, receiving the mismatched Ack 0 does resend Data block 1 once, but
the loop then increments `packet_counter` and reads the next 512-byte chunk,
sending Data block 2 — the state advances instead of staying at block 1. -/
theorem C3_mismatched_ack_advances_counter :
    readLoop (List.replicate 1024 97) 1 [[0, 4, 0, 0]] [] =
      ([SentItem.dataPkt 1 (List.replicate 512 97),
        SentItem.dataPkt 1 (List.replicate 512 97),
        SentItem.dataPkt 2 (List.replicate 512 97)], .blocked) := by decide

/-- Claim C4 is false on the code: for the rejected mode "netascii",
`handle_read_request` sends the Error(NotDefined) packet, but `send_error`
returns `Ok(())`, so the `?` does not return: the function goes on to open
the requested file, send Data block 1, and finish the transfer normally. -/
theorem C4_rejected_mode_continues_transfer :
    handleReadRequest (asciiBytes "f") (asciiBytes "netascii")
      (fun n => if n = asciiBytes "f" then some (asciiBytes "hi") else none)
      [[0, 4, 0, 1]] =
    { sent := [SentItem.errPkt .NotDefined, SentItem.dataPkt 1 (asciiBytes "hi")],
      openedFile := true, outcome := .ok } := by decide

/-- Claim C5 is false on the code: when the response decodes to a non-Ack
packet (here an Error packet), the loop sends Error(IllegalTFTPOperation)
but does not break — it increments the counter and sends Data block 2. Only
the decode-failure arm breaks out of the loop. -/
theorem C5_non_ack_does_not_abort :
    readLoop (List.replicate 1024 97) 1 [[0, 5, 0, 0, 97, 97, 0]] [] =
      ([SentItem.dataPkt 1 (List.replicate 512 97),
        SentItem.errPkt .IllegalTFTPOperation,
        SentItem.dataPkt 2 (List.replicate 512 97)], .blocked) := by decide

/-- Claim C6 is false on the code: the decoder panics on the empty input and
on the one-byte input (the slice `input[0..2]` is out of range), and on an
Error packet whose message segment is shorter than 2 bytes (the slice
`input[2..end_error_msg]` has start above end) — also when that datagram
arrives through the 512-byte receive buffer. -/
theorem C6_decoder_panics :
    PacketType.tryFrom [] = .panicked ∧
    PacketType.tryFrom [0] = .panicked ∧
    PacketType.tryFrom [0, 5, 0, 0, 0] = .panicked ∧
    PacketType.tryFrom (recvBuffer [0, 5, 0, 0]) = .panicked := by decide

/-- Claim C7: every 2-byte error-code field whose big-endian value is outside
0..7 decodes to `Ok(NotDefined)`, and an Error packet carrying such a code
(with a well-formed message) decodes successfully with code NotDefined. -/
theorem C7_unknown_error_code_defaults (hi lo : Nat)
    (hhi : hi < 256) (hlo : lo < 256) (h : 7 < hi * 256 + lo) :
    ErrorCode.tryFrom [hi, lo] = .ok .NotDefined ∧
    ErrorPacket.tryFrom (hi :: lo :: [97, 97, 0]) =
      .ok { opcode := .TFTPError, error_code := .NotDefined, error_msg := [] } := by
  have hofu : ErrorCode.ofU16 (hi * 256 + lo) = .NotDefined := by
    obtain ⟨k, hk⟩ : ∃ k, hi * 256 + lo = k + 8 := ⟨hi * 256 + lo - 8, by omega⟩
    rw [hk]
    rfl
  have h1 : ErrorCode.tryFrom [hi, lo] = .ok .NotDefined := by
    simp [ErrorCode.tryFrom, be16, hofu]
  refine ⟨h1, ?_⟩
  unfold ErrorPacket.tryFrom
  simp [Bind.bind, RResult.bind, rslice, rsliceFrom, h1, cstringNew, pure,
    List.takeWhile]

/-- Witness for C7 at the out-of-range code value 8. -/
theorem C7_witness :
    (0 : Nat) < 256 ∧ (8 : Nat) < 256 ∧ 7 < 0 * 256 + 8 ∧
    (ErrorCode.tryFrom [0, 8] = .ok .NotDefined ∧
     ErrorPacket.tryFrom (0 :: 8 :: [97, 97, 0]) =
       .ok { opcode := .TFTPError, error_code := .NotDefined, error_msg := [] }) :=
  ⟨by decide, by decide, by decide,
   C7_unknown_error_code_defaults 0 8 (by decide) (by decide) (by decide)⟩

/-- Claim C8: block numbers wrap modulo 65536. With at least 1024 bytes of
content left and counter 65535, a matching Ack 65535 advances the counter to
(65535 + 1) % 65536 = 0, the next Data packet carries block number 0, and the
following Ack 0 matches that wrapped block (no resend, no error), advancing
to block 1. -/
theorem C8_block_number_wraparound (content : List Nat) (rs : List (List Nat))
    (sent : List SentItem) (h : 1024 ≤ content.length) :
    readLoop content 65535 ([0, 4, 255, 255] :: [0, 4, 0, 0] :: rs) sent =
      readLoop (content.drop 1024) 1 rs
        (sent ++ [SentItem.dataPkt 65535 (content.take 512),
                  SentItem.dataPkt 0 ((content.drop 512).take 512)]) := by
  have hd1 : PacketType.tryFrom (recvBuffer [0, 4, 255, 255]) =
      .ok (.Acknowledgment { opcode := .Acknowledgment, block_number := 65535 }) := by
    decide
  have hd2 : PacketType.tryFrom (recvBuffer [0, 4, 0, 0]) =
      .ok (.Acknowledgment { opcode := .Acknowledgment, block_number := 0 }) := by
    decide
  have hl1 : (content.take 512).length = 512 := by
    rw [List.length_take]
    omega
  have hl2 : ((content.drop 512).take 512).length = 512 := by
    rw [List.length_take, List.length_drop]
    omega
  rw [readLoop]
  simp only [hd1, hl1, ne_eq, not_true_eq_false, if_false, ite_false]
  norm_num
  rw [readLoop]
  simp only [hd2, hl2, ne_eq, not_true_eq_false, ite_false]
  norm_num [List.drop_drop]

/-- Witness for C8 on a concrete 1024-byte file. -/
theorem C8_witness :
    1024 ≤ (List.replicate 1024 97).length ∧
    readLoop (List.replicate 1024 97) 65535 [[0, 4, 255, 255], [0, 4, 0, 0]] [] =
      readLoop ((List.replicate 1024 97).drop 1024) 1 []
        ([] ++ [SentItem.dataPkt 65535 ((List.replicate 1024 97).take 512),
                SentItem.dataPkt 0 (((List.replicate 1024 97).drop 512).take 512)]) :=
  ⟨by decide,
   C8_block_number_wraparound (List.replicate 1024 97) [] [] (by decide)⟩

/-- Claim C9 is false on the code: `handle_write_request` is a stub — it
binds a socket and returns `Ok(())` without sending Ack 0, receiving any
Data packet, or writing anything. -/
theorem C9_write_handler_is_stub (filename mode : List Nat)
    (responses : List (List Nat)) :
    handleWriteRequest filename mode responses = ([], .ok) := rfl

/-- Claim C10 is false on the code: the read-loop `recv` has no timeout and
there is no retry counter, so when no datagram ever arrives the session
blocks forever after sending the current Data packet — it neither resends
nor aborts. -/
theorem C10_no_timeout_no_retry (content : List Nat) (packet_counter : Nat)
    (sent : List SentItem) :
    readLoop content packet_counter [] sent =
      (sent ++ [SentItem.dataPkt packet_counter (content.take 512)], .blocked) := by
  rw [readLoop]

end Tftp
